import Mathlib

/-!
Verification of the flask-boilerplate application (`src/app.py`).

The file shallowly embeds the application's request pipeline: the two
pre-request hooks (`write_access_log`, `check_session`), the three
post-request hooks (`add_no_cache_header`, `static_cache`,
`write_access_result_log`), the route handlers, the catch-all error handler
(`handle_error`), the exemption decorator (`skip_session_check`) and the
secret-key provisioning (`get_secret_key`).

Framework semantics embedded alongside (Flask, external to the repository):
pre-request callbacks run in registration order and the first non-`None`
return value short-circuits the dispatch; post-request callbacks run in
reverse registration order (Flask's `process_response` iterates
`reversed(self.after_request_funcs)`); an unhandled exception raised during
pre-request processing or view dispatch is routed to the registered
`Exception` error handler inside `full_dispatch_request`, while one raised
by a post-request callback escapes to the request loop (`wsgi_app`), which
logs it (`log_exception`), invokes the same registered handler
(`handle_exception`), and finalizes the handler's response with
`from_error_handler=True`, so a second post-processing failure logs
`Request finalizing failed` and returns that response unfinalized.

Python-side effects are made explicit: the session, the access and error
logs, and a ghost trace of which callbacks and views the dispatcher invoked
are threaded through a `Ctx` state record; an uncaught Python exception is
an `Except.error` carrying its formatted traceback.
-/

namespace FlaskApp

/-- A session is the cookie-backed mapping from string keys to string
values; this application only ever stores the key `login_id`. -/
abbrev Session := List (String × String)

/-- The relevant parts of a WSGI request: HTTP method, path, the endpoint
name matched by routing (`none` when no route matched), and the
proxy-forwarded address chain (`request.access_route`). -/
structure Request where
  method : String
  path : String
  endpoint : Option String
  access_route : List String
deriving DecidableEq, Repr

/-- A response header value: either a plain string or a datetime (seconds
since an arbitrary epoch) that Python renders with `isoformat()`. -/
inductive HVal where
  | str (s : String)
  | date (t : Nat)
deriving DecidableEq, Repr

/-- A response body, kept structured rather than serialized: plain text,
a JSON object (association list of fields), a rendered template with its
parameters, or a static file served by the framework. -/
inductive Body where
  | text (s : String)
  | json (fields : List (String × String))
  | template (name : String) (params : List (String × String))
  | staticFile (path : String)
deriving DecidableEq, Repr

/-- A WSGI response: status code, body, headers. -/
structure Response where
  status_code : Nat
  body : Body
  headers : List (String × HVal)
deriving DecidableEq, Repr

/-- Ghost trace entry: the dispatcher records each pre-request callback,
view function and post-request callback it invokes. -/
inductive TraceEnt where
  | before (name : String)
  | view (name : String)
  | after (name : String)
deriving DecidableEq, Repr

/-- The per-request mutable state threaded through the pipeline: the
session, the two log sinks, the ghost invocation trace, and the current
wall-clock time (seconds), read by `datetime.now()`. -/
structure Ctx where
  session : Session
  accessLog : List String
  errorLog : List String
  trace : List TraceEnt
  now : Nat
deriving DecidableEq, Repr

/-- An uncaught Python exception, carrying the text that
`traceback.format_exc()` produces for it. -/
structure PyErr where
  tb : String
deriving DecidableEq, Repr

/-- `app.logger.info`: appends a line to the access log (the INFO-level
rotating sink). -/
def logInfo (ctx : Ctx) (msg : String) : Ctx :=
  { ctx with accessLog := ctx.accessLog ++ [msg] }

/-- `app.logger.error`: appends a line to the error log (the ERROR-level
rotating sink). -/
def logError (ctx : Ctx) (msg : String) : Ctx :=
  { ctx with errorLog := ctx.errorLog ++ [msg] }

/-- `session.get(k)`. -/
def sessionGet (s : Session) (k : String) : Option String :=
  (s.find? (fun p => p.1 == k)).map (fun p => p.2)

/-- `session[k] = v`. -/
def sessionSet (s : Session) (k : String) (v : String) : Session :=
  s.filter (fun p => p.1 != k) ++ [(k, v)]

/-- Python truthiness of an optional string: `None` and the empty string
are falsy, any other string is truthy. -/
def truthy : Option String → Bool
  | none => false
  | some v => v != ""

/-- `remote_addr` (src/app.py:60-62): `request.access_route[-1]`, the last
entry of the forwarded-address chain. Python's `[-1]` raises `IndexError`
on an empty list, so the embedding returns an `Option`. -/
def remote_addr (access_route : List String) : Option String :=
  access_route.getLast?

/-- The traceback text of the `IndexError` that `[-1]` raises on an empty
list. -/
def indexErrorTraceback : String :=
  "Traceback (most recent call last):\nIndexError: list index out of range"

/-- The traceback text of the `NotFound` routing exception. -/
def notFoundTraceback : String :=
  "Traceback (most recent call last):\nwerkzeug.exceptions.NotFound: 404 Not Found"

/-- `make_response(body_text, code)`: a plain-text response. -/
def make_response_text (body : String) (code : Nat) : Response :=
  ⟨code, Body.text body, []⟩

/-- `jsonify(d)`: a JSON response with status 200. -/
def jsonify (d : List (String × String)) : Response :=
  ⟨200, Body.json d, []⟩

/-- `make_response(res, code)`: same response with the status replaced. -/
def make_response_code (r : Response) (code : Nat) : Response :=
  { r with status_code := code }

/-- `render_template(name, params)`: a 200 HTML response rendering the
named template with the given parameters. -/
def render_template (name : String) (params : List (String × String)) : Response :=
  ⟨200, Body.template name params, []⟩

/-- `res.headers[k] = v` on a werkzeug header map: replaces any existing
value for the key. -/
def setHeader (hs : List (String × HVal)) (k : String) (v : HVal) : List (String × HVal) :=
  hs.filter (fun p => p.1 != k) ++ [(k, v)]

/-- A pre-request callback: may log, may short-circuit with a response
(`some`), may raise. -/
abbrev BeforeHook := Request → Ctx → Ctx × Except PyErr (Option Response)

/-- A post-request callback: receives the response, returns the (possibly
modified) response, may raise. -/
abbrev AfterHook := Request → Response → Ctx → Ctx × Except PyErr Response

/-- A view function together with its `__name__`. -/
structure ViewFunc where
  name : String
  run : Request → Ctx → Ctx × Except PyErr Response

/-- `skip_session_check` (src/app.py:70-78): if the config slot is unset,
set it to the empty list; append the function's `__name__`; return the
function itself unmodified. -/
def skip_session_check (config : Option (List String)) (func : ViewFunc) :
    Option (List String) × ViewFunc :=
  match config with
  | none => (some [func.name], func)
  | some l => (some (l ++ [func.name]), func)

/-- `return_json_response` (src/app.py:175-178): `jsonify({'this is': 'sample'})`. -/
def return_json_response : ViewFunc :=
  ⟨"return_json_response", fun _req ctx => (ctx, Except.ok (jsonify [("this is", "sample")]))⟩

/-- `return_error_response` (src/app.py:181-184): `make_response(jsonify({}), 403)`. -/
def return_error_response : ViewFunc :=
  ⟨"return_error_response", fun _req ctx => (ctx, Except.ok (make_response_code (jsonify []) 403))⟩

/-- `index` (src/app.py:187-193): sets `session['login_id'] = 'something'`
and renders `index.html` with `name='World'`. -/
def index : ViewFunc :=
  ⟨"index", fun _req ctx =>
    ({ ctx with session := sessionSet ctx.session "login_id" "something" },
     Except.ok (render_template "index.html" [("name", "World")]))⟩

/-- Flask's built-in static-file view, registered under the endpoint name
`static` (external to the repository): serves the requested file. -/
def static_view : ViewFunc :=
  ⟨"static", fun req ctx => (ctx, Except.ok ⟨200, Body.staticFile req.path, []⟩)⟩

/-- The value of `app.config['IGNORE_SESSION_CHECK']` once the module is
loaded: initialized to `['static']` (src/app.py:86), then the
`@skip_session_check` decoration of `index` (src/app.py:188) appends
`'index'`. -/
def IGNORE_SESSION_CHECK : List String :=
  (skip_session_check (some ["static"]) index).1.getD []

/-- The session gate's membership test: `request.endpoint in
app.config['IGNORE_SESSION_CHECK']` — an unmatched endpoint (`None`) is
never a member. -/
def endpointExempt (ep : Option String) (lst : List String) : Bool :=
  match ep with
  | some e => lst.contains e
  | none => false

/-- `write_access_log` (src/app.py:100-105): logs
`{ip}\t{method}\t{path}\trequest start` to the access log and returns
`None`; raises `IndexError` when the address chain is empty. -/
def write_access_log : BeforeHook := fun req ctx =>
  match remote_addr req.access_route with
  | none => (ctx, Except.error ⟨indexErrorTraceback⟩)
  | some ip =>
    (logInfo ctx (ip ++ "\t" ++ req.method ++ "\t" ++ req.path ++ "\trequest start"),
     Except.ok none)

/-- `check_session` (src/app.py:108-123): endpoints in the exemption list
pass; otherwise a truthy `session.get('login_id')` passes; otherwise
short-circuit with `make_response('login required', 401)`. -/
def check_session : BeforeHook := fun req ctx =>
  if endpointExempt req.endpoint IGNORE_SESSION_CHECK then
    (ctx, Except.ok none)
  else
    let session_check_result := sessionGet ctx.session "login_id"
    if truthy session_check_result then
      (ctx, Except.ok none)
    else
      (ctx, Except.ok (some (make_response_text "login required" 401)))

/-- `add_no_cache_header` (src/app.py:131-139): every header-setting line
is commented out, so the response is returned unchanged. -/
def add_no_cache_header : AfterHook := fun _req res ctx =>
  (ctx, Except.ok res)

/-- `static_cache` (src/app.py:142-155): when the matched endpoint is
`static`, sets the `Expires` header to `datetime.now() + timedelta(days=365)`
(rendered via `isoformat()`); otherwise returns the response unchanged. -/
def static_cache : AfterHook := fun req res ctx =>
  if req.endpoint == some "static" then
    let expires := ctx.now + 365 * 86400
    (ctx, Except.ok { res with headers := setHeader res.headers "Expires" (HVal.date expires) })
  else
    (ctx, Except.ok res)

/-- `write_access_result_log` (src/app.py:158-167): logs
`{ip}\t{method}\t{path}\treqeust end\t{status_code}` (sic — the marker is
misspelled in the source) to the access log; raises `IndexError` when the
address chain is empty. -/
def write_access_result_log : AfterHook := fun req res ctx =>
  match remote_addr req.access_route with
  | none => (ctx, Except.error ⟨indexErrorTraceback⟩)
  | some ip =>
    (logInfo ctx (ip ++ "\t" ++ req.method ++ "\t" ++ req.path ++ "\treqeust end\t"
       ++ toString res.status_code),
     Except.ok res)

/-- `handle_error` (src/app.py:196-203): splits `traceback.format_exc()`
on newlines, logs each line prefixed by its 1-based number and a tab, and
returns `('Internal Server Error', 500)`. -/
def handle_error (e : PyErr) (ctx : Ctx) : Ctx × Response :=
  let lines := (e.tb.splitOn "\n").enum.map (fun p => toString (p.1 + 1) ++ "\t" ++ p.2)
  (lines.foldl logError ctx, ⟨500, Body.text "Internal Server Error", []⟩)

/-- The pre-request callbacks in registration order (src/app.py:100, 108),
each paired with its name for the ghost trace. -/
def before_request_funcs : List (String × BeforeHook) :=
  [("write_access_log", write_access_log), ("check_session", check_session)]

/-- The post-request callbacks in registration order (src/app.py:131, 142,
158), each paired with its name for the ghost trace. -/
def after_request_funcs : List (String × AfterHook) :=
  [("add_no_cache_header", add_no_cache_header),
   ("static_cache", static_cache),
   ("write_access_result_log", write_access_result_log)]

/-- The application's view-function table (`app.view_functions`): endpoint
name to view. -/
def view_functions : List (String × ViewFunc) :=
  [("static", static_view),
   ("return_json_response", return_json_response),
   ("return_error_response", return_error_response),
   ("index", index)]

/-- Flask's `preprocess_request`: run the pre-request callbacks in
registration order; the first non-`None` return value stops the loop and
becomes the response; an exception propagates. The dispatcher records each
invoked callback in the ghost trace. -/
def preprocess_request : List (String × BeforeHook) → Request → Ctx →
    Ctx × Except PyErr (Option Response)
  | [], _, ctx => (ctx, Except.ok none)
  | (name, h) :: rest, req, ctx =>
    let ctx1 := { ctx with trace := ctx.trace ++ [TraceEnt.before name] }
    match h req ctx1 with
    | (ctx2, Except.error e) => (ctx2, Except.error e)
    | (ctx2, Except.ok (some res)) => (ctx2, Except.ok (some res))
    | (ctx2, Except.ok none) => preprocess_request rest req ctx2

/-- Flask's `dispatch_request`: look up the matched endpoint's view and
call it; raise `NotFound` when routing matched nothing. -/
def dispatch_request (views : List (String × ViewFunc)) (req : Request) (ctx : Ctx) :
    Ctx × Except PyErr Response :=
  match req.endpoint with
  | none => (ctx, Except.error ⟨notFoundTraceback⟩)
  | some e =>
    match views.find? (fun p => p.1 == e) with
    | none => (ctx, Except.error ⟨notFoundTraceback⟩)
    | some p =>
      let ctx1 := { ctx with trace := ctx.trace ++ [TraceEnt.view p.2.name] }
      p.2.run req ctx1

/-- Flask's `full_dispatch_request` with the app's registered `Exception`
handler: pre-request callbacks, then the view unless a callback
short-circuited; any exception raised on the way is routed to
`handle_error`. -/
def full_dispatch_request (views : List (String × ViewFunc)) (req : Request) (ctx : Ctx) :
    Ctx × Response :=
  match preprocess_request before_request_funcs req ctx with
  | (ctx1, Except.error e) => handle_error e ctx1
  | (ctx1, Except.ok (some res)) => (ctx1, res)
  | (ctx1, Except.ok none) =>
    match dispatch_request views req ctx1 with
    | (ctx2, Except.error e) => handle_error e ctx2
    | (ctx2, Except.ok res) => (ctx2, res)

/-- The loop body of Flask's `process_response`: apply the given
post-request callbacks left to right, recording each in the ghost trace;
an exception propagates. -/
def process_response_from : List (String × AfterHook) → Request → Response → Ctx →
    Ctx × Except PyErr Response
  | [], _, res, ctx => (ctx, Except.ok res)
  | (name, h) :: rest, req, res, ctx =>
    let ctx1 := { ctx with trace := ctx.trace ++ [TraceEnt.after name] }
    match h req res ctx1 with
    | (ctx2, Except.error e) => (ctx2, Except.error e)
    | (ctx2, Except.ok res2) => process_response_from rest req res2 ctx2

/-- Flask's `process_response`: the post-request callbacks are applied in
REVERSE registration order (`for handler in reversed(funcs)`). -/
def process_response (req : Request) (res : Response) (ctx : Ctx) :
    Ctx × Except PyErr Response :=
  process_response_from after_request_funcs.reverse req res ctx

/-- Flask's `log_exception` (called from `handle_exception` before the
error handler runs): one ERROR-level record `Exception on {path}
[{method}]` carrying the exception's traceback. -/
def log_exception (req : Request) (e : PyErr) (ctx : Ctx) : Ctx :=
  logError ctx ("Exception on " ++ req.path ++ " [" ++ req.method ++ "]\n" ++ e.tb)

/-- Flask's `finalize_request` with `from_error_handler=True`: run the
post-request callbacks on the error handler's response; if they raise
again, log `Request finalizing failed` and return the response
unfinalized instead of propagating. -/
def finalize_from_error_handler (req : Request) (res : Response) (ctx : Ctx) :
    Ctx × Response :=
  match process_response req res ctx with
  | (ctx2, Except.ok res2) => (ctx2, res2)
  | (ctx2, Except.error _) => (logError ctx2 "Request finalizing failed", res)

/-- Flask's `handle_exception`, reached when an exception escapes
`full_dispatch_request` (in this app: a post-request callback raising):
log the exception, invoke the registered `Exception` handler
(`handle_error`), and finalize its response with
`from_error_handler=True`. -/
def handle_exception (req : Request) (e : PyErr) (ctx : Ctx) : Ctx × Response :=
  match handle_error e (log_exception req e ctx) with
  | (ctx2, res) => finalize_from_error_handler req res ctx2

/-- One full request, modelling Flask's `wsgi_app`: dispatch (with
user-exception handling), then response post-processing; an exception
raised by a post-request callback is caught and routed to
`handle_exception`, so a response is always produced. -/
def handleRequest (views : List (String × ViewFunc)) (req : Request) (ctx : Ctx) :
    Ctx × Response :=
  match full_dispatch_request views req ctx with
  | (ctx1, res) =>
    match process_response req res ctx1 with
    | (ctx2, Except.ok res2) => (ctx2, res2)
    | (ctx2, Except.error e) => handle_exception req e ctx2

/-- One full request against this application's view table. -/
def app_handle (req : Request) (ctx : Ctx) : Ctx × Response :=
  handleRequest view_functions req ctx

/-- A fresh per-request context over a given session and clock. -/
def initCtx (s : Session) (now : Nat) : Ctx :=
  ⟨s, [], [], [], now⟩

/-! ## Secret-key provisioning (`get_secret_key`, src/app.py:15-30) -/

/-- The filesystem as a mapping from filename to contents. -/
abbrev FileSystem := List (String × String)

/-- `open(filename).read()` when it succeeds; `none` stands for the
`IOError` that `open` raises when the file cannot be read. -/
def readFile (fs : FileSystem) (name : String) : Option String :=
  (fs.find? (fun p => p.1 == name)).map (fun p => p.2)

/-- `open(filename, 'w').write(content)`. -/
def writeFile (fs : FileSystem) (name : String) (content : String) : FileSystem :=
  fs.filter (fun p => p.1 != name) ++ [(name, content)]

/-- `string.punctuation`. -/
def punctuation : String :=
  "!\"#$%&\x27()*+,-./:;<=>?@[\\]^_`\x7b|\x7d~"

/-- `string.ascii_letters`. -/
def ascii_letters : String :=
  "abcdefghijklmnopqrstuvwxyzABCDEFGHIJKLMNOPQRSTUVWXYZ"

/-- `string.digits`. -/
def string_digits : String :=
  "0123456789"

/-- The alphabet `string.punctuation + string.ascii_letters + string.digits`
that `random.choice` samples from. -/
def keyAlphabet : List Char :=
  (punctuation ++ ascii_letters ++ string_digits).toList

/-- `random.choice(seq)` under an explicit stream of random draws: the
draw `r` selects index `r % len(seq)`. -/
def randomChoice (seq : List Char) (r : Nat) : Char :=
  seq.getD (r % seq.length) ' '

/-- The 64-character key built by the list comprehension
`''.join([random.choice(...) for i in range(64)])`, with `r i` the i-th
random draw. -/
def generateKey (r : Nat → Nat) : String :=
  String.mk ((List.range 64).map (fun i => randomChoice keyAlphabet (r i)))

/-- `get_secret_key` (src/app.py:15-30): return the file's contents when
readable; otherwise generate a 64-character key, write it to the file and
return it. The filename is already joined with the application root. -/
def get_secret_key (fs : FileSystem) (r : Nat → Nat) (filename : String) :
    String × FileSystem :=
  match readFile fs filename with
  | some content => (content, fs)
  | none =>
    let k := generateKey r
    (k, writeFile fs filename k)

/-! ## Helper lemmas -/

lemma errorLog_foldl_logError (lines : List String) (ctx : Ctx) :
    (lines.foldl logError ctx).errorLog = ctx.errorLog ++ lines := by
  induction lines generalizing ctx with
  | nil => simp
  | cons a t ih => simp [logError, ih]

lemma readFile_writeFile (fs : FileSystem) (f k : String) :
    readFile (writeFile fs f k) f = some k := by
  induction fs with
  | nil => simp [readFile, writeFile]
  | cons a t ih =>
    simp only [readFile, writeFile] at ih ⊢
    by_cases h : a.1 = f
    · rw [List.filter_cons, if_neg (by simp [h])]
      exact ih
    · rw [List.filter_cons, if_pos (by simp [h]), List.cons_append,
        List.find?_cons_of_neg _ (by simp [h])]
      exact ih

lemma keyAlphabet_length : keyAlphabet.length = 94 := by decide

lemma randomChoice_keyAlphabet_mem (r : Nat) : randomChoice keyAlphabet r ∈ keyAlphabet := by
  have hlt : r % keyAlphabet.length < keyAlphabet.length := by
    refine Nat.mod_lt _ ?_
    rw [keyAlphabet_length]
    exact Nat.succ_pos _
  rw [randomChoice, List.getD_eq_getElem keyAlphabet ' ' hlt]
  exact List.getElem_mem _

lemma generateKey_length (r : Nat → Nat) : (generateKey r).length = 64 := by
  simp [generateKey, String.length]

lemma generateKey_chars (r : Nat → Nat) :
    ∀ ch ∈ (generateKey r).toList, ch ∈ keyAlphabet := by
  intro ch hch
  simp only [generateKey, String.toList, String.mk, List.mem_map] at hch
  obtain ⟨i, _, hi⟩ := hch
  rw [← hi]
  exact randomChoice_keyAlphabet_mem (r i)

lemma sessionGet_sessionSet (s : Session) (k v : String) :
    sessionGet (sessionSet s k v) k = some v := by
  induction s with
  | nil => simp [sessionGet, sessionSet]
  | cons a t ih =>
    simp only [sessionGet, sessionSet] at ih ⊢
    by_cases h : a.1 = k
    · rw [List.filter_cons, if_neg (by simp [h])]
      exact ih
    · rw [List.filter_cons, if_pos (by simp [h]), List.cons_append,
        List.find?_cons_of_neg _ (by simp [h])]
      exact ih

lemma endpoint_not_static (ep : Option String)
    (hex : endpointExempt ep IGNORE_SESSION_CHECK = false) :
    (ep == some "static") = false := by
  cases hep : ep with
  | none => rfl
  | some e =>
    rw [hep] at hex
    by_cases h1 : e = "static"
    · rw [h1] at hex
      simp [endpointExempt, IGNORE_SESSION_CHECK, skip_session_check, index] at hex
    · simp [h1]

/-- Selects the post-request entries of a ghost trace. -/
def isAfterEnt : TraceEnt → Bool
  | TraceEnt.after _ => true
  | _ => false

lemma process_response_trace (req : Request) (res : Response) (ctx : Ctx) (ip : String)
    (hip : remote_addr req.access_route = some ip) :
    (process_response req res ctx).1.trace =
      ctx.trace ++ [TraceEnt.after "write_access_result_log",
        TraceEnt.after "static_cache", TraceEnt.after "add_no_cache_header"] := by
  cases hb : req.endpoint == some "static" <;>
    simp [process_response, process_response_from, after_request_funcs,
      write_access_result_log, static_cache, add_no_cache_header, hip, hb, logInfo]

lemma process_response_snd_of_remote (req : Request) (res : Response) (ctx : Ctx) (ip : String)
    (hip : remote_addr req.access_route = some ip) :
    (process_response req res ctx).2 =
      Except.ok (if req.endpoint == some "static"
        then { res with
               headers := setHeader res.headers "Expires" (HVal.date (ctx.now + 365 * 86400)) }
        else res) := by
  cases hb : req.endpoint == some "static" <;>
    simp [process_response, process_response_from, after_request_funcs,
      write_access_result_log, static_cache, add_no_cache_header, hip, hb, logInfo]

lemma process_response_errorLog_eq (req : Request) (res : Response) (ctx : Ctx) :
    (process_response req res ctx).1.errorLog = ctx.errorLog := by
  cases ha : remote_addr req.access_route <;>
    cases hb : req.endpoint == some "static" <;>
      simp [process_response, process_response_from, after_request_funcs,
        write_access_result_log, static_cache, add_no_cache_header, ha, hb, logInfo]

lemma process_response_preserves_status_body (req : Request) (res : Response) (ctx ctx2 : Ctx)
    (res2 : Response) (h : process_response req res ctx = (ctx2, Except.ok res2)) :
    res2.status_code = res.status_code ∧ res2.body = res.body := by
  cases ha : remote_addr req.access_route with
  | none =>
    simp [process_response, process_response_from, after_request_funcs,
      write_access_result_log, ha] at h
  | some ip =>
    have hs := process_response_snd_of_remote req res ctx ip ha
    rw [h] at hs
    cases hb : req.endpoint == some "static" <;> rw [hb] at hs <;>
      simp only [if_true, if_false, Except.ok.injEq, Bool.false_eq_true, if_neg,
        ite_false, ite_true] at hs <;>
      simp [hs]

/-! ## Claim theorems -/

/-- C1: a request whose matched endpoint is not in the exemption list and
whose session has no truthy `login_id` is short-circuited by the session
gate: the response is 401 with body `login required` and no view function
is ever invoked. -/
theorem C1_session_gate_401 (req : Request) (s : Session) (now : Nat) (ip : String)
    (hip : remote_addr req.access_route = some ip)
    (hex : endpointExempt req.endpoint IGNORE_SESSION_CHECK = false)
    (hs : truthy (sessionGet s "login_id") = false) :
    (app_handle req (initCtx s now)).2 =
      ⟨401, Body.text "login required", []⟩ ∧
    ∀ n, TraceEnt.view n ∉ (app_handle req (initCtx s now)).1.trace := by
  have hstat := endpoint_not_static req.endpoint hex
  have key : app_handle req (initCtx s now) =
      (⟨s, [ip ++ "\t" ++ req.method ++ "\t" ++ req.path ++ "\trequest start",
            ip ++ "\t" ++ req.method ++ "\t" ++ req.path ++ "\treqeust end\t" ++ toString 401],
        [], [TraceEnt.before "write_access_log", TraceEnt.before "check_session",
             TraceEnt.after "write_access_result_log", TraceEnt.after "static_cache",
             TraceEnt.after "add_no_cache_header"], now⟩,
       ⟨401, Body.text "login required", []⟩) := by
    simp [app_handle, handleRequest, full_dispatch_request, preprocess_request,
      before_request_funcs, write_access_log, check_session, initCtx, hip, hex, hs,
      process_response, process_response_from, after_request_funcs,
      write_access_result_log, static_cache, add_no_cache_header, hstat, logInfo,
      make_response_text]
  constructor
  · rw [key]
  · rw [key]
    intro n
    simp

/-- Witness for C1: an unauthenticated request to
`/api/return_json_response` is refused with 401 `login required`. -/
theorem C1_session_gate_401_witness :
    (app_handle ⟨"GET", "/api/return_json_response", some "return_json_response", ["1.2.3.4"]⟩
        (initCtx [] 0)).2 =
      ⟨401, Body.text "login required", []⟩ :=
  (C1_session_gate_401
    ⟨"GET", "/api/return_json_response", some "return_json_response", ["1.2.3.4"]⟩
    [] 0 "1.2.3.4" rfl (by decide) rfl).1

/-- C2: every exception raised by a view function or a hook reaches the
catch-all error handler: `handle_error` returns status 500 with plain-text
body `Internal Server Error` and logs the formatted traceback line by
line, each line prefixed by its 1-based number and a tab. Pre-request and
view exceptions are routed to it inside `full_dispatch_request`; a
post-request hook exception is caught by the request loop and routed to
it via `handle_exception`, whose final response still carries status 500
and the `Internal Server Error` body and whose error log contains the
numbered traceback lines. -/
theorem C2_error_handler_500 :
    (∀ (e : PyErr) (ctx : Ctx),
       (handle_error e ctx).2 = ⟨500, Body.text "Internal Server Error", []⟩ ∧
       (handle_error e ctx).1.errorLog =
         ctx.errorLog ++
           (e.tb.splitOn "\n").enum.map (fun p => toString (p.1 + 1) ++ "\t" ++ p.2)) ∧
    (∀ (views : List (String × ViewFunc)) (req : Request) (ctx ctx1 : Ctx) (e : PyErr),
       preprocess_request before_request_funcs req ctx = (ctx1, Except.error e) →
       full_dispatch_request views req ctx = handle_error e ctx1) ∧
    (∀ (views : List (String × ViewFunc)) (req : Request) (ctx ctx1 ctx2 : Ctx) (e : PyErr),
       preprocess_request before_request_funcs req ctx = (ctx1, Except.ok none) →
       dispatch_request views req ctx1 = (ctx2, Except.error e) →
       full_dispatch_request views req ctx = handle_error e ctx2) ∧
    (∀ (views : List (String × ViewFunc)) (req : Request) (ctx ctx1 ctx2 : Ctx)
       (res : Response) (e : PyErr),
       full_dispatch_request views req ctx = (ctx1, res) →
       process_response req res ctx1 = (ctx2, Except.error e) →
       handleRequest views req ctx = handle_exception req e ctx2) ∧
    (∀ (req : Request) (e : PyErr) (ctx : Ctx),
       (handle_exception req e ctx).2.status_code = 500 ∧
       (handle_exception req e ctx).2.body = Body.text "Internal Server Error" ∧
       ∃ t, (handle_exception req e ctx).1.errorLog =
         ctx.errorLog ++
           ["Exception on " ++ req.path ++ " [" ++ req.method ++ "]\n" ++ e.tb] ++
           (e.tb.splitOn "\n").enum.map (fun p => toString (p.1 + 1) ++ "\t" ++ p.2) ++ t) := by
  refine ⟨?_, ?_, ?_, ?_, ?_⟩
  · intro e ctx
    exact ⟨rfl, errorLog_foldl_logError _ ctx⟩
  · intro views req ctx ctx1 e h
    simp [full_dispatch_request, h]
  · intro views req ctx ctx1 ctx2 e h1 h2
    simp [full_dispatch_request, h1, h2]
  · intro views req ctx ctx1 ctx2 res e h1 h2
    simp [handleRequest, h1, h2]
  · intro req e ctx
    rcases hhe : handle_error e (log_exception req e ctx) with ⟨ctx2, res⟩
    have hres : res = ⟨500, Body.text "Internal Server Error", []⟩ := by
      have h0 : (handle_error e (log_exception req e ctx)).2 =
          ⟨500, Body.text "Internal Server Error", []⟩ := rfl
      rw [hhe] at h0
      exact h0
    have hctx2log : ctx2.errorLog =
        ctx.errorLog ++ ["Exception on " ++ req.path ++ " [" ++ req.method ++ "]\n" ++ e.tb] ++
          (e.tb.splitOn "\n").enum.map (fun p => toString (p.1 + 1) ++ "\t" ++ p.2) := by
      have h0 : (handle_error e (log_exception req e ctx)).1.errorLog =
          (log_exception req e ctx).errorLog ++
            (e.tb.splitOn "\n").enum.map (fun p => toString (p.1 + 1) ++ "\t" ++ p.2) :=
        errorLog_foldl_logError _ (log_exception req e ctx)
      rw [hhe] at h0
      simpa [log_exception, logError] using h0
    have hgoal : handle_exception req e ctx = finalize_from_error_handler req res ctx2 := by
      simp [handle_exception, hhe]
    rw [hgoal]
    have herr := process_response_errorLog_eq req res ctx2
    rcases hpr : process_response req res ctx2 with ⟨ctx3, r⟩
    rw [hpr] at herr
    cases r with
    | ok res2 =>
      have hpres := process_response_preserves_status_body req res ctx2 ctx3 res2 hpr
      have hfin : finalize_from_error_handler req res ctx2 = (ctx3, res2) := by
        simp [finalize_from_error_handler, hpr]
      rw [hfin]
      refine ⟨?_, ?_, ⟨[], ?_⟩⟩
      · rw [hpres.1, hres]
      · rw [hpres.2, hres]
      · rw [herr, hctx2log]
        simp
    | error e2 =>
      have hfin : finalize_from_error_handler req res ctx2 =
          (logError ctx3 "Request finalizing failed", res) := by
        simp [finalize_from_error_handler, hpr]
      rw [hfin]
      refine ⟨by rw [hres], by rw [hres], ⟨["Request finalizing failed"], ?_⟩⟩
      have herr2 : ctx3.errorLog = ctx2.errorLog := herr
      simp [logError, herr2, hctx2log]

/-- Witness for C2: a concrete error handled; a request whose routing
raised `NotFound` flowing through the catch-all handler; a request with an
empty address chain whose post-request hook exception is routed to
`handle_exception`, still producing a 500. -/
theorem C2_error_handler_500_witness :
    (handle_error ⟨"A\nB"⟩ (initCtx [] 0)).2 =
      ⟨500, Body.text "Internal Server Error", []⟩ ∧
    full_dispatch_request view_functions ⟨"GET", "/nope", some "nope", ["1.2.3.4"]⟩
        (initCtx [("login_id", "x")] 0) =
      handle_error ⟨notFoundTraceback⟩
        ⟨[("login_id", "x")], ["1.2.3.4\tGET\t/nope\trequest start"], [],
         [TraceEnt.before "write_access_log", TraceEnt.before "check_session"], 0⟩ ∧
    handleRequest view_functions ⟨"GET", "/", some "index", []⟩ (initCtx [] 0) =
      handle_exception ⟨"GET", "/", some "index", []⟩ ⟨indexErrorTraceback⟩
        { (handle_error ⟨indexErrorTraceback⟩
             ⟨[], [], [], [TraceEnt.before "write_access_log"], 0⟩).1 with
          trace := (handle_error ⟨indexErrorTraceback⟩
             ⟨[], [], [], [TraceEnt.before "write_access_log"], 0⟩).1.trace ++
            [TraceEnt.after "write_access_result_log"] } ∧
    (handle_exception ⟨"GET", "/", some "index", []⟩ ⟨indexErrorTraceback⟩
        (initCtx [] 0)).2.status_code = 500 := by
  refine ⟨(C2_error_handler_500.1 ⟨"A\nB"⟩ (initCtx [] 0)).1, ?_, ?_, ?_⟩
  · exact C2_error_handler_500.2.2.1 view_functions ⟨"GET", "/nope", some "nope", ["1.2.3.4"]⟩
      (initCtx [("login_id", "x")] 0)
      ⟨[("login_id", "x")], ["1.2.3.4\tGET\t/nope\trequest start"], [],
       [TraceEnt.before "write_access_log", TraceEnt.before "check_session"], 0⟩
      ⟨[("login_id", "x")], ["1.2.3.4\tGET\t/nope\trequest start"], [],
       [TraceEnt.before "write_access_log", TraceEnt.before "check_session"], 0⟩
      ⟨notFoundTraceback⟩ rfl rfl
  · exact C2_error_handler_500.2.2.2.1 view_functions ⟨"GET", "/", some "index", []⟩
      (initCtx [] 0)
      (handle_error ⟨indexErrorTraceback⟩
        ⟨[], [], [], [TraceEnt.before "write_access_log"], 0⟩).1
      { (handle_error ⟨indexErrorTraceback⟩
           ⟨[], [], [], [TraceEnt.before "write_access_log"], 0⟩).1 with
        trace := (handle_error ⟨indexErrorTraceback⟩
           ⟨[], [], [], [TraceEnt.before "write_access_log"], 0⟩).1.trace ++
          [TraceEnt.after "write_access_result_log"] }
      (handle_error ⟨indexErrorTraceback⟩
        ⟨[], [], [], [TraceEnt.before "write_access_log"], 0⟩).2
      ⟨indexErrorTraceback⟩ rfl rfl
  · exact (C2_error_handler_500.2.2.2.2 ⟨"GET", "/", some "index", []⟩ ⟨indexErrorTraceback⟩
      (initCtx [] 0)).1

/-- C3: `get_secret_key` returns the file's contents when readable; on
read failure it builds a 64-character key whose characters all come from
`punctuation ++ ascii_letters ++ digits`, writes it to the file and
returns it, so a subsequent call with the same filename returns the same
key. -/
theorem C3_get_secret_key_roundtrip :
    (∀ (fs : FileSystem) (r : Nat → Nat) (filename c : String),
       readFile fs filename = some c → get_secret_key fs r filename = (c, fs)) ∧
    (∀ (fs : FileSystem) (r : Nat → Nat) (filename : String),
       readFile fs filename = none →
       (get_secret_key fs r filename).1.length = 64 ∧
       (∀ ch ∈ (get_secret_key fs r filename).1.toList, ch ∈ keyAlphabet) ∧
       (get_secret_key fs r filename).2 =
         writeFile fs filename (get_secret_key fs r filename).1 ∧
       (∀ r2 : Nat → Nat,
          get_secret_key (get_secret_key fs r filename).2 r2 filename =
            ((get_secret_key fs r filename).1, (get_secret_key fs r filename).2))) := by
  constructor
  · intro fs r filename c h
    simp [get_secret_key, h]
  · intro fs r filename h
    simp only [get_secret_key, h]
    refine ⟨generateKey_length r, generateKey_chars r, by trivial, ?_⟩
    intro r2
    simp [get_secret_key, readFile_writeFile]

/-- Witness for C3: a readable file is returned as-is, and generation from
an empty filesystem yields a 64-character key that a second call reads
back. -/
theorem C3_get_secret_key_roundtrip_witness :
    get_secret_key [("secret_key", "abc")] (fun _ => 0) "secret_key" =
      ("abc", [("secret_key", "abc")]) ∧
    (get_secret_key [] (fun i => i) "secret_key").1.length = 64 ∧
    get_secret_key (get_secret_key [] (fun i => i) "secret_key").2 (fun _ => 7) "secret_key" =
      ((get_secret_key [] (fun i => i) "secret_key").1,
       (get_secret_key [] (fun i => i) "secret_key").2) := by
  refine ⟨C3_get_secret_key_roundtrip.1 [("secret_key", "abc")] (fun _ => 0) "secret_key" "abc"
    (by decide), ?_, ?_⟩
  · exact (C3_get_secret_key_roundtrip.2 [] (fun i => i) "secret_key" (by decide)).1
  · exact (C3_get_secret_key_roundtrip.2 [] (fun i => i) "secret_key" (by decide)).2.2.2 (fun _ => 7)

/-- C5 evidence: at a concrete request the end-of-request hook writes the
line `1.2.3.4\tGET\t/\treqeust end\t200` — the marker in the source is the
misspelled `reqeust end`, not `request end`. -/
theorem C5_result_log_marker_misspelled :
    (write_access_result_log ⟨"GET", "/", some "index", ["1.2.3.4"]⟩
        ⟨200, Body.text "ok", []⟩ (initCtx [] 0)).1.accessLog =
      ["1.2.3.4\tGET\t/\treqeust end\t200"] ∧
    "1.2.3.4\tGET\t/\treqeust end\t200" ≠ "1.2.3.4\tGET\t/\trequest end\t200" := by
  exact ⟨rfl, by decide⟩

/-- C8: `static_cache` sets the `Expires` header to one year (365 days)
past the current time exactly when the matched endpoint is `static` and
returns every other response unchanged; `add_no_cache_header` returns
every response unchanged. -/
theorem C8_cache_hooks (req : Request) (res : Response) (ctx : Ctx) :
    (req.endpoint = some "static" →
       static_cache req res ctx =
         (ctx, Except.ok
           { res with
             headers := setHeader res.headers "Expires" (HVal.date (ctx.now + 365 * 86400)) })) ∧
    (req.endpoint ≠ some "static" →
       static_cache req res ctx = (ctx, Except.ok res)) ∧
    add_no_cache_header req res ctx = (ctx, Except.ok res) := by
  refine ⟨?_, ?_, rfl⟩
  · intro h
    simp [static_cache, h]
  · intro h
    simp [static_cache, h]

/-- Witness for C8: the header set on a static response, another endpoint
left unchanged. -/
theorem C8_cache_hooks_witness :
    static_cache ⟨"GET", "/static/a.css", some "static", ["1.2.3.4"]⟩
        ⟨200, Body.staticFile "/static/a.css", []⟩ (initCtx [] 5) =
      (initCtx [] 5,
       Except.ok ⟨200, Body.staticFile "/static/a.css",
         [("Expires", HVal.date (5 + 365 * 86400))]⟩) ∧
    static_cache ⟨"GET", "/", some "index", ["1.2.3.4"]⟩
        ⟨200, Body.text "t", []⟩ (initCtx [] 5) =
      (initCtx [] 5, Except.ok ⟨200, Body.text "t", []⟩) := by
  constructor
  · have h := (C8_cache_hooks ⟨"GET", "/static/a.css", some "static", ["1.2.3.4"]⟩
      ⟨200, Body.staticFile "/static/a.css", []⟩ (initCtx [] 5)).1 rfl
    simpa [setHeader, initCtx] using h
  · exact (C8_cache_hooks ⟨"GET", "/", some "index", ["1.2.3.4"]⟩
      ⟨200, Body.text "t", []⟩ (initCtx [] 5)).2.1 (by decide)

/-- C10: `remote_addr` is defined exactly on non-empty address chains
(`[-1]` raises `IndexError` on an empty list); both logging hooks raise on
an empty chain and write their log line whenever the chain resolves. -/
theorem C10_remote_addr_nonempty_chain :
    (∀ l : List String, remote_addr l = none ↔ l = []) ∧
    (∀ (req : Request) (ctx : Ctx), req.access_route = [] →
       write_access_log req ctx = (ctx, Except.error ⟨indexErrorTraceback⟩)) ∧
    (∀ (req : Request) (res : Response) (ctx : Ctx), req.access_route = [] →
       write_access_result_log req res ctx = (ctx, Except.error ⟨indexErrorTraceback⟩)) ∧
    (∀ (req : Request) (ctx : Ctx) (ip : String),
       remote_addr req.access_route = some ip →
       (write_access_log req ctx).1.accessLog =
         ctx.accessLog ++ [ip ++ "\t" ++ req.method ++ "\t" ++ req.path ++ "\trequest start"] ∧
       ∀ res : Response, (write_access_result_log req res ctx).1.accessLog =
         ctx.accessLog ++ [ip ++ "\t" ++ req.method ++ "\t" ++ req.path ++ "\treqeust end\t"
           ++ toString res.status_code]) := by
  refine ⟨?_, ?_, ?_, ?_⟩
  · intro l
    simp [remote_addr, List.getLast?_eq_none_iff]
  · intro req ctx h
    simp [write_access_log, remote_addr, h]
  · intro req res ctx h
    simp [write_access_result_log, remote_addr, h]
  · intro req ctx ip h
    refine ⟨?_, ?_⟩
    · simp [write_access_log, h, logInfo]
    · intro res
      simp [write_access_result_log, h, logInfo]

/-- C4 counterexample: on a concrete request the post-request hooks do NOT
run in registration order (`add_no_cache_header`, `static_cache`,
`write_access_result_log`): Flask's `process_response` applies them in
reverse registration order. -/
theorem C4_registration_order_counterexample :
    ((app_handle ⟨"GET", "/", some "index", ["1.2.3.4"]⟩ (initCtx [] 0)).1.trace.filter
        isAfterEnt) ≠
      [TraceEnt.after "add_no_cache_header", TraceEnt.after "static_cache",
       TraceEnt.after "write_access_result_log"] := by
  decide

/-- C4 (amended): for every request whose client address resolves, the
post-request hooks execute in REVERSE registration order — first the
end-of-request log write, then the static-file Expires hook, then the
no-op cache-control adjustment — both at the `process_response` stage and
at the end of full request handling. -/
theorem C4_after_hooks_reverse_order :
    (∀ (req : Request) (res : Response) (ctx : Ctx) (ip : String),
       remote_addr req.access_route = some ip →
       (process_response req res ctx).1.trace =
         ctx.trace ++ [TraceEnt.after "write_access_result_log",
           TraceEnt.after "static_cache", TraceEnt.after "add_no_cache_header"]) ∧
    (∀ (views : List (String × ViewFunc)) (req : Request) (ctx : Ctx) (ip : String),
       remote_addr req.access_route = some ip →
       ∃ t, (handleRequest views req ctx).1.trace =
         t ++ [TraceEnt.after "write_access_result_log",
           TraceEnt.after "static_cache", TraceEnt.after "add_no_cache_header"]) := by
  constructor
  · exact process_response_trace
  · intro views req ctx ip hip
    rcases hfd : full_dispatch_request views req ctx with ⟨ctx1, res⟩
    refine ⟨ctx1.trace, ?_⟩
    have ht := process_response_trace req res ctx1 ip hip
    have hok := process_response_snd_of_remote req res ctx1 ip hip
    rcases hpr : process_response req res ctx1 with ⟨ctx2, r⟩
    rw [hpr] at ht hok
    cases r with
    | ok res2 =>
      have hhr : handleRequest views req ctx = (ctx2, res2) := by
        simp [handleRequest, hfd, hpr]
      rw [hhr]
      exact ht
    | error e2 =>
      simp at hok

/-- Witness for C4: the reverse order observed on a concrete request. -/
theorem C4_after_hooks_reverse_order_witness :
    (process_response ⟨"GET", "/", some "index", ["1.2.3.4"]⟩ ⟨200, Body.text "t", []⟩
        (initCtx [] 0)).1.trace =
      [TraceEnt.after "write_access_result_log", TraceEnt.after "static_cache",
       TraceEnt.after "add_no_cache_header"] := by
  have h := C4_after_hooks_reverse_order.1 ⟨"GET", "/", some "index", ["1.2.3.4"]⟩
    ⟨200, Body.text "t", []⟩ (initCtx [] 0) "1.2.3.4" rfl
  simpa [initCtx] using h

/-- C6: `GET /` (endpoint `index`) returns 200 and stores the truthy value
`something` under `login_id`, and any request whose session holds a truthy
`login_id` passes the session gate. -/
theorem C6_index_authenticates (s : Session) (now : Nat) (route : List String) (ip : String)
    (hip : remote_addr route = some ip) :
    (app_handle ⟨"GET", "/", some "index", route⟩ (initCtx s now)).2 =
      ⟨200, Body.template "index.html" [("name", "World")], []⟩ ∧
    truthy (sessionGet
      (app_handle ⟨"GET", "/", some "index", route⟩ (initCtx s now)).1.session
      "login_id") = true ∧
    (∀ (req2 : Request) (ctx2 : Ctx),
       truthy (sessionGet ctx2.session "login_id") = true →
       check_session req2 ctx2 = (ctx2, Except.ok none)) := by
  refine ⟨?_, ?_, ?_⟩
  · simp [app_handle, handleRequest, full_dispatch_request, preprocess_request,
      before_request_funcs, write_access_log, check_session, initCtx, hip,
      dispatch_request, view_functions, index, render_template,
      process_response, process_response_from, after_request_funcs,
      write_access_result_log, static_cache, add_no_cache_header, logInfo,
      endpointExempt, IGNORE_SESSION_CHECK, skip_session_check]
  · simp [app_handle, handleRequest, full_dispatch_request, preprocess_request,
      before_request_funcs, write_access_log, check_session, initCtx, hip,
      dispatch_request, view_functions, index, render_template,
      process_response, process_response_from, after_request_funcs,
      write_access_result_log, static_cache, add_no_cache_header, logInfo,
      endpointExempt, IGNORE_SESSION_CHECK, skip_session_check,
      sessionGet_sessionSet, truthy]
  · intro req2 ctx2 h
    simp [check_session, h]

/-- Witness for C6: a concrete `GET /` with an empty session. -/
theorem C6_index_authenticates_witness :
    (app_handle ⟨"GET", "/", some "index", ["9.9.9.9"]⟩ (initCtx [] 0)).2 =
      ⟨200, Body.template "index.html" [("name", "World")], []⟩ ∧
    truthy (sessionGet
      (app_handle ⟨"GET", "/", some "index", ["9.9.9.9"]⟩ (initCtx [] 0)).1.session
      "login_id") = true := by
  have h := C6_index_authenticates [] 0 ["9.9.9.9"] "9.9.9.9" rfl
  exact ⟨h.1, h.2.1⟩

/-- C7: `skip_session_check` appends the function's name to the exemption
list and returns the function unmodified; every exempt endpoint passes the
session gate untouched; the two exempt endpoints (`static`, `index`)
answer a sessionless request with their normal responses. -/
theorem C7_exempt_endpoints :
    (∀ (config : Option (List String)) (f : ViewFunc),
       skip_session_check config f = (some (config.getD [] ++ [f.name]), f)) ∧
    (∀ (req : Request) (ctx : Ctx),
       endpointExempt req.endpoint IGNORE_SESSION_CHECK = true →
       check_session req ctx = (ctx, Except.ok none)) ∧
    (∀ (path : String) (route : List String) (ip : String) (now : Nat),
       remote_addr route = some ip →
       (app_handle ⟨"GET", path, some "static", route⟩ (initCtx [] now)).2 =
         ⟨200, Body.staticFile path,
           [("Expires", HVal.date (now + 365 * 86400))]⟩) ∧
    (∀ (route : List String) (ip : String) (now : Nat),
       remote_addr route = some ip →
       (app_handle ⟨"GET", "/", some "index", route⟩ (initCtx [] now)).2 =
         ⟨200, Body.template "index.html" [("name", "World")], []⟩) := by
  refine ⟨?_, ?_, ?_, ?_⟩
  · intro config f
    cases config <;> simp [skip_session_check]
  · intro req ctx h
    simp [check_session, h]
  · intro path route ip now hip
    simp [app_handle, handleRequest, full_dispatch_request, preprocess_request,
      before_request_funcs, write_access_log, check_session, initCtx, hip,
      dispatch_request, view_functions, static_view, setHeader,
      process_response, process_response_from, after_request_funcs,
      write_access_result_log, static_cache, add_no_cache_header, logInfo,
      endpointExempt, IGNORE_SESSION_CHECK, skip_session_check, index]
  · intro route ip now hip
    simp [app_handle, handleRequest, full_dispatch_request, preprocess_request,
      before_request_funcs, write_access_log, check_session, initCtx, hip,
      dispatch_request, view_functions, index, render_template,
      process_response, process_response_from, after_request_funcs,
      write_access_result_log, static_cache, add_no_cache_header, logInfo,
      endpointExempt, IGNORE_SESSION_CHECK, skip_session_check]

/-- Witness for C7: the decorator's registration of `index`, and a
sessionless request to the static endpoint answered normally. -/
theorem C7_exempt_endpoints_witness :
    skip_session_check (some ["static"]) index = (some (["static"] ++ ["index"]), index) ∧
    (app_handle ⟨"GET", "/static/a.css", some "static", ["1.2.3.4"]⟩ (initCtx [] 7)).2 =
      ⟨200, Body.staticFile "/static/a.css",
        [("Expires", HVal.date (7 + 365 * 86400))]⟩ := by
  constructor
  · exact C7_exempt_endpoints.1 (some ["static"]) index
  · exact C7_exempt_endpoints.2.2.1 "/static/a.css" ["1.2.3.4"] "1.2.3.4" 7 rfl

/-- C9: with a truthy `login_id` in the session,
`GET /api/return_json_response` answers 200 with JSON body
`{"this is": "sample"}` and `GET /api/return_error_response` answers 403
with JSON body `{}`. -/
theorem C9_sample_endpoints (s : Session) (now : Nat) (route : List String) (ip : String)
    (hip : remote_addr route = some ip)
    (hs : truthy (sessionGet s "login_id") = true) :
    (app_handle ⟨"GET", "/api/return_json_response", some "return_json_response", route⟩
        (initCtx s now)).2 =
      ⟨200, Body.json [("this is", "sample")], []⟩ ∧
    (app_handle ⟨"GET", "/api/return_error_response", some "return_error_response", route⟩
        (initCtx s now)).2 =
      ⟨403, Body.json [], []⟩ := by
  constructor
  · simp [app_handle, handleRequest, full_dispatch_request, preprocess_request,
      before_request_funcs, write_access_log, check_session, initCtx, hip, hs,
      dispatch_request, view_functions, return_json_response, jsonify,
      process_response, process_response_from, after_request_funcs,
      write_access_result_log, static_cache, add_no_cache_header, logInfo,
      endpointExempt, IGNORE_SESSION_CHECK, skip_session_check, index]
  · simp [app_handle, handleRequest, full_dispatch_request, preprocess_request,
      before_request_funcs, write_access_log, check_session, initCtx, hip, hs,
      dispatch_request, view_functions, return_error_response, jsonify, make_response_code,
      process_response, process_response_from, after_request_funcs,
      write_access_result_log, static_cache, add_no_cache_header, logInfo,
      endpointExempt, IGNORE_SESSION_CHECK, skip_session_check, index]

/-- Witness for C9: a concrete authenticated session. -/
theorem C9_sample_endpoints_witness :
    (app_handle ⟨"GET", "/api/return_json_response", some "return_json_response", ["1.2.3.4"]⟩
        (initCtx [("login_id", "x")] 0)).2 =
      ⟨200, Body.json [("this is", "sample")], []⟩ ∧
    (app_handle ⟨"GET", "/api/return_error_response", some "return_error_response", ["1.2.3.4"]⟩
        (initCtx [("login_id", "x")] 0)).2 =
      ⟨403, Body.json [], []⟩ :=
  C9_sample_endpoints [("login_id", "x")] 0 ["1.2.3.4"] "1.2.3.4" rfl rfl

/-- Witness for C10: a request with an empty chain makes the first hook
raise; a request with a one-element chain gets its start line logged. -/
theorem C10_remote_addr_nonempty_chain_witness :
    write_access_log ⟨"GET", "/", some "index", []⟩ (initCtx [] 0) =
      (initCtx [] 0, Except.error ⟨indexErrorTraceback⟩) ∧
    (write_access_log ⟨"GET", "/", some "index", ["9.9.9.9"]⟩ (initCtx [] 0)).1.accessLog =
      ["9.9.9.9\tGET\t/\trequest start"] := by
  constructor
  · exact C10_remote_addr_nonempty_chain.2.1 ⟨"GET", "/", some "index", []⟩ (initCtx [] 0) rfl
  · have h := (C10_remote_addr_nonempty_chain.2.2.2 ⟨"GET", "/", some "index", ["9.9.9.9"]⟩
      (initCtx [] 0) "9.9.9.9" rfl).1
    simpa [initCtx] using h

end FlaskApp




